import Mathlib

/-!
Verification of the bull-put-credit-spread analysis service.

Shallow embedding of the core computations:
* `calculate_rsi` (src/utils/indicators.py) — Wilder-smoothed RSI,
* `evaluate_strategy` (src/app.py) — six-factor scoring and the play/pass decision,
* `classify_tier` (src/app.py) — A/B/C/PASS tiering,
* `estimate_bull_put_credit` (src/utils/options.py) — premium-credit estimate with floor
  and failure fallback,
* the file-backed TTL cache (`_get_cached_data` / `_set_cached_data`, src/utils/screener.py),
* the per-period decline measures of `screen_stocks` and `calculate_period_drop`
  (src/utils/screener.py) and the screener's RSI-default substitution.

Python floats are modelled as exact rationals; a Python function that can raise inside a
`try` block is modelled as an `Option`-valued function, `none` standing for the raised /
swallowed-exception outcome.
-/

namespace StockOptions

/-! ## RSI (src/utils/indicators.py, `calculate_rsi`)

Pandas semantics embedded:
`series.diff()` yields NaN then consecutive differences; `delta.where(delta > 0, 0.0)`
replaces the NaN (comparison is False) and non-positive deltas by `0.0`, so the gain and
loss series start with `0`.  `ewm(alpha=1/window, adjust=False).mean()` is the recursion
`y₀ = x₀`, `yₜ = (1-α)·yₜ₋₁ + α·xₜ`; only the final value is consulted.  Division of the
final averages follows IEEE semantics: `avg_gain/0` is `+inf` for a positive numerator
(so `rsi = 100 - 100/(1+inf) = 100`) and NaN for a zero numerator (so `pd.isna` fires and
the function returns `None`).  A window of `0` makes `1/window` raise, which the
surrounding `try` turns into `None`. -/

/-- Final value of pandas `ewm(alpha=α, adjust=False).mean()`: seeded with the first
element, then `y ↦ (1-α)·y + α·x`. -/
def ewmLast (α : ℚ) : List ℚ → ℚ
  | [] => 0
  | x :: xs => xs.foldl (fun y v => (1 - α) * y + α * v) x

/-- Consecutive differences of a price list (`series.diff()` without its leading NaN). -/
def diffs (prices : List ℚ) : List ℚ :=
  List.zipWith (fun a b => b - a) prices prices.tail

/-- The gain series: `0` for the NaN slot, then `max(Δ, 0)`. -/
def gains (prices : List ℚ) : List ℚ :=
  0 :: (diffs prices).map (fun d => if 0 < d then d else 0)

/-- The loss series: `0` for the NaN slot, then `max(-Δ, 0)`. -/
def losses (prices : List ℚ) : List ℚ :=
  0 :: (diffs prices).map (fun d => if d < 0 then -d else 0)

/-- Final smoothed average gain. -/
def avgGainLast (prices : List ℚ) (window : ℕ) : ℚ :=
  ewmLast (1 / (window : ℚ)) (gains prices)

/-- Final smoothed average loss. -/
def avgLossLast (prices : List ℚ) (window : ℕ) : ℚ :=
  ewmLast (1 / (window : ℚ)) (losses prices)

/-- `rs = avg_gain/avg_loss; rsi = 100 - 100/(1+rs)` under IEEE semantics on the final
element: `g/0 = +inf` for `g > 0` so the RSI collapses to `100`, and `0/0 = NaN` so
`pd.isna` fires and `None` is returned. -/
def rsiFromAverages (g l : ℚ) : Option ℚ :=
  if l = 0 then
    if g = 0 then none else some 100
  else some (100 - 100 / (1 + g / l))

/-- `calculate_rsi` (src/utils/indicators.py lines 168-189).  `none` models both the
explicit `return None` for short inputs and every swallowed-exception / NaN outcome
(in particular `window = 0` makes `alpha = 1/window` raise inside the `try`). -/
def calculate_rsi (prices : List ℚ) (window : ℕ := 14) : Option ℚ :=
  if prices.length < window + 1 then none
  else if window = 0 then none
  else rsiFromAverages (avgGainLast prices window) (avgLossLast prices window)

/-! ## Strategy evaluation (src/app.py, `evaluate_strategy`) -/

/-- Factor 1, RSI oversold levels (src/app.py lines 211-245): score and signal flag. -/
def rsiFactor : Option ℚ → ℚ × Bool
  | none => (0, false)
  | some r =>
    if r ≤ 20 then (35/100, true)
    else if r ≤ 25 then (3/10, true)
    else if r ≤ 30 then (25/100, true)
    else if r ≤ 35 then (15/100, false)
    else if r ≤ 40 then (5/100, false)
    else (0, false)

/-- Factor 2, volatility-context (VIX) levels (src/app.py lines 247-268). -/
def vixFactor (v : ℚ) : ℚ :=
  if 25 ≤ v then 3/10
  else if 20 ≤ v then 25/100
  else if 18 ≤ v then 2/10
  else if 16 ≤ v then 1/10
  else 5/100

/-- Factor 3, decline magnitude (src/app.py lines 270-318): an `elif` cascade over the
1-day return, the 5-day drawdown and the 30-day max single-day drop (the 10-day
drawdown extracted at line 193 is never consulted).  Score and signal flag. -/
def dropFactor (current_return rolling_5d_drop max_recent_drop : ℚ) : ℚ × Bool :=
  if 8 ≤ |current_return| then (3/10, true)
  else if 5 ≤ |current_return| then (25/100, true)
  else if 10 ≤ |rolling_5d_drop| then (28/100, true)
  else if 7 ≤ |rolling_5d_drop| then (23/100, true)
  else if 5 ≤ |rolling_5d_drop| then (18/100, true)
  else if 8 ≤ |max_recent_drop| then (2/10, false)
  else if 5 ≤ |max_recent_drop| then (15/100, false)
  else (0, false)

/-- Factor 4, distance from the 10-day low (src/app.py lines 320-341). -/
def lowFactor (distance_from_low : ℚ) : ℚ :=
  if distance_from_low ≤ 1 then 2/10
  else if distance_from_low ≤ 3 then 18/100
  else if distance_from_low ≤ 5 then 15/100
  else if distance_from_low ≤ 8 then 1/10
  else 0

/-- Factor 5, trend versus the 200-day moving average (src/app.py lines 343-365). -/
def trendFactor : Option ℚ → ℚ
  | none => 0
  | some p =>
    if |p| ≤ 5 then 15/100
    else if -10 ≤ p ∧ p < 0 then 12/100
    else if -15 ≤ p then 8/100
    else 2/100

/-- Factor 6, oversold persistence bonus (src/app.py lines 367-377). -/
def oversoldFactor (days_oversold : ℕ) : ℚ :=
  if 3 ≤ days_oversold then 1/10
  else if 2 ≤ days_oversold then 8/100
  else if 1 ≤ days_oversold then 5/100
  else 0

/-- The factor sum accumulated in `score` before the decision (src/app.py line 200-377). -/
def strategyScore (rsi : Option ℚ) (vix current_return rolling_5d_drop max_recent_drop : ℚ)
    (days_oversold : ℕ) (distance_from_low : ℚ) (price_vs_200ma : Option ℚ) : ℚ :=
  (rsiFactor rsi).1 + vixFactor vix
    + (dropFactor current_return rolling_5d_drop max_recent_drop).1
    + lowFactor distance_from_low + trendFactor price_vs_200ma
    + oversoldFactor days_oversold

/-- Core of `evaluate_strategy` after metric extraction (src/app.py lines 199-392):
returns `(is_play, min(score, 1.0))`.  The `rolling_10d_drop` argument mirrors the
extraction at line 193; the body never uses it. -/
def evaluateCore (rsi : Option ℚ)
    (vix current_return rolling_5d_drop rolling_10d_drop max_recent_drop : ℚ)
    (days_oversold : ℕ) (distance_from_low : ℚ) (price_vs_200ma : Option ℚ) : Bool × ℚ :=
  let s := strategyScore rsi vix current_return rolling_5d_drop max_recent_drop
    days_oversold distance_from_low price_vs_200ma
  (decide (6/10 ≤ s) &&
     ((rsiFactor rsi).2 || (dropFactor current_return rolling_5d_drop max_recent_drop).2),
   min s 1)

/-- The metrics dictionary fed to `evaluate_strategy`.  `VIX : Option (Option ℚ)`
distinguishes an absent key (`none`) from a key stored with Python `None`
(`some none`), exactly the two shapes `metrics.get('VIX', 20)` must face:
`analyze_ticker` (src/app.py line 163) stores `None` when the volatility fetch fails. -/
structure Metrics where
  RSI : Option ℚ
  VIX : Option (Option ℚ)
  percent_drop : ℚ
  rolling_5d_drop : ℚ
  rolling_10d_drop : ℚ
  max_recent_drop : ℚ
  days_oversold : ℕ
  distance_from_low : ℚ
  price_vs_200ma : Option ℚ

/-- `metrics.get('VIX', 20)` followed by the numeric comparisons of factor 2:
a missing key yields the default `20`; a key stored with `None` reaches
`vix_level >= 25` and raises `TypeError`, modelled as `none`. -/
def vixGet : Option (Option ℚ) → Option ℚ
  | none => some 20
  | some none => none
  | some (some v) => some v

/-- `evaluate_strategy` (src/app.py lines 185-392) on a metrics dictionary; `none` is
the un-caught `TypeError` raised when the VIX key holds `None`. -/
def evaluate_strategy (m : Metrics) : Option (Bool × ℚ) :=
  match vixGet m.VIX with
  | none => none
  | some v => some (evaluateCore m.RSI v m.percent_drop m.rolling_5d_drop
      m.rolling_10d_drop m.max_recent_drop m.days_oversold m.distance_from_low
      m.price_vs_200ma)

end StockOptions

namespace StockOptions

/-! ## First theorems: RSI short-input behaviour (C6) -/

/-- C6: For every input price sequence shorter than `window+1` observations (15 for the
default window of 14), the RSI computation returns an absent value (`None`); the
embedding is a total function, mirroring the `try/except` that converts every internal
fault into `None` rather than an exception. -/
theorem rsi_short_input_none (prices : List ℚ) (h : prices.length < 15) :
    calculate_rsi prices 14 = none := by
  unfold calculate_rsi
  simp [h]

/-- Witness for C6 at the concrete three-point series `[1, 2, 3]`. -/
theorem rsi_short_input_none_witness :
    ([ (1 : ℚ), 2, 3 ].length < 15) ∧ calculate_rsi [(1 : ℚ), 2, 3] 14 = none :=
  ⟨by decide, rsi_short_input_none [(1 : ℚ), 2, 3] (by decide)⟩

/-! ## RSI range and saturation (C7) -/

theorem foldl_ewm_nonneg (α : ℚ) (h0 : 0 ≤ α) (h1 : α ≤ 1) :
    ∀ (l : List ℚ) (y : ℚ), 0 ≤ y → (∀ x ∈ l, 0 ≤ x) →
      0 ≤ l.foldl (fun y v => (1 - α) * y + α * v) y
  | [], _, hy, _ => hy
  | x :: t, y, hy, hall => by
    simp only [List.foldl_cons]
    exact foldl_ewm_nonneg α h0 h1 t _
      (add_nonneg (mul_nonneg (by linarith) hy)
        (mul_nonneg h0 (hall x (List.mem_cons_self x t))))
      (fun z hz => hall z (List.mem_cons_of_mem x hz))

theorem foldl_ewm_pos (α : ℚ) (h0 : 0 < α) (h1 : α < 1) :
    ∀ (l : List ℚ) (y : ℚ), 0 < y → (∀ x ∈ l, 0 ≤ x) →
      0 < l.foldl (fun y v => (1 - α) * y + α * v) y
  | [], _, hy, _ => hy
  | x :: t, y, hy, hall => by
    simp only [List.foldl_cons]
    have hx : 0 ≤ x := hall x (List.mem_cons_self x t)
    exact foldl_ewm_pos α h0 h1 t _
      (by nlinarith) (fun z hz => hall z (List.mem_cons_of_mem x hz))

theorem foldl_ewm_all_zero (α : ℚ) :
    ∀ (l : List ℚ), (∀ x ∈ l, x = 0) →
      l.foldl (fun y v => (1 - α) * y + α * v) 0 = 0
  | [], _ => rfl
  | x :: t, hall => by
    have hx : x = 0 := hall x (List.mem_cons_self x t)
    simp only [List.foldl_cons, hx, mul_zero, add_zero, zero_add]
    exact foldl_ewm_all_zero α t (fun z hz => hall z (List.mem_cons_of_mem x hz))

theorem ewmLast_nonneg (α : ℚ) (h0 : 0 ≤ α) (h1 : α ≤ 1) (l : List ℚ)
    (hall : ∀ x ∈ l, 0 ≤ x) : 0 ≤ ewmLast α l := by
  cases l with
  | nil => exact le_refl 0
  | cons x t =>
    exact foldl_ewm_nonneg α h0 h1 t x (hall x (List.mem_cons_self x t))
      (fun z hz => hall z (List.mem_cons_of_mem x hz))

theorem ewmLast_all_zero (α : ℚ) (l : List ℚ) (hall : ∀ x ∈ l, x = 0) :
    ewmLast α l = 0 := by
  cases l with
  | nil => rfl
  | cons x t =>
    have hx : x = 0 := hall x (List.mem_cons_self x t)
    unfold ewmLast
    rw [hx]
    exact foldl_ewm_all_zero α t (fun z hz => hall z (List.mem_cons_of_mem x hz))

theorem gains_nonneg (prices : List ℚ) : ∀ x ∈ gains prices, 0 ≤ x := by
  intro x hx
  rcases List.mem_cons.mp hx with rfl | hmem
  · exact le_refl 0
  · obtain ⟨d, _, rfl⟩ := List.mem_map.mp hmem
    split <;> [linarith; exact le_refl 0]

theorem losses_nonneg (prices : List ℚ) : ∀ x ∈ losses prices, 0 ≤ x := by
  intro x hx
  rcases List.mem_cons.mp hx with rfl | hmem
  · exact le_refl 0
  · obtain ⟨d, _, rfl⟩ := List.mem_map.mp hmem
    split <;> [linarith; exact le_refl 0]

theorem alpha_window_bounds (w : ℕ) (hw : w ≠ 0) :
    0 ≤ 1 / (w : ℚ) ∧ 1 / (w : ℚ) ≤ 1 := by
  have h1 : (1 : ℚ) ≤ (w : ℚ) := by exact_mod_cast Nat.one_le_iff_ne_zero.mpr hw
  exact ⟨by positivity, (div_le_one (by linarith)).mpr h1⟩

theorem avgGainLast_nonneg (prices : List ℚ) (w : ℕ) (hw : w ≠ 0) :
    0 ≤ avgGainLast prices w :=
  ewmLast_nonneg _ (alpha_window_bounds w hw).1 (alpha_window_bounds w hw).2 _
    (gains_nonneg prices)

theorem avgLossLast_nonneg (prices : List ℚ) (w : ℕ) (hw : w ≠ 0) :
    0 ≤ avgLossLast prices w :=
  ewmLast_nonneg _ (alpha_window_bounds w hw).1 (alpha_window_bounds w hw).2 _
    (losses_nonneg prices)

/-- Every diff along a strictly increasing price list is positive. -/
theorem diffs_pos_of_chain :
    ∀ (l : List ℚ), List.Chain' (· < ·) l → ∀ d ∈ diffs l, 0 < d
  | [], _, d, hd => by simp [diffs] at hd
  | [_], _, d, hd => by simp [diffs] at hd
  | a :: b :: t, hc, d, hd => by
    rw [List.chain'_cons] at hc
    unfold diffs at hd
    simp only [List.tail_cons, List.zipWith_cons_cons] at hd
    rcases List.mem_cons.mp hd with rfl | hmem
    · linarith [hc.1]
    · exact diffs_pos_of_chain (b :: t) hc.2 d (by simp [diffs]; exact hmem)

/-- C7: Whenever the RSI computation returns a value, that value lies in [0, 100];
on a strictly increasing price series of at least 15 points the default-window RSI is
exactly 100 (never above 100, never below 0); and whenever the smoothed average loss is
zero and a value is returned, that value is the saturated 100 — no division fault. -/
theorem rsi_range_and_saturation :
    (∀ (prices : List ℚ) (w : ℕ) (r : ℚ),
        calculate_rsi prices w = some r → 0 ≤ r ∧ r ≤ 100) ∧
    (∀ prices : List ℚ, 15 ≤ prices.length → List.Chain' (· < ·) prices →
        calculate_rsi prices 14 = some 100) ∧
    (∀ (prices : List ℚ) (w : ℕ) (r : ℚ),
        calculate_rsi prices w = some r → avgLossLast prices w = 0 → r = 100) := by
  refine ⟨?_, ?_, ?_⟩
  · intro prices w r h
    unfold calculate_rsi at h
    split_ifs at h with hlen hw
    unfold rsiFromAverages at h
    split_ifs at h with hl hg
    · rw [Option.some_inj] at h
      exact h ▸ ⟨by norm_num, le_refl 100⟩
    · rw [Option.some_inj] at h
      subst h
      have hg0 : 0 ≤ avgGainLast prices w := avgGainLast_nonneg prices w hw
      have hl0 : 0 < avgLossLast prices w :=
        lt_of_le_of_ne (avgLossLast_nonneg prices w hw) (Ne.symm hl)
      have ht : 0 ≤ avgGainLast prices w / avgLossLast prices w := by positivity
      set t := avgGainLast prices w / avgLossLast prices w with hteq
      have h1t : (1 : ℚ) ≤ 1 + t := by linarith
      have hdpos : 0 < 100 / (1 + t) := by positivity
      have hdle : 100 / (1 + t) ≤ 100 := by
        rw [div_le_iff₀ (by linarith)]
        nlinarith
      constructor <;> linarith
  · intro prices h15 hchain
    have hlen : ¬ prices.length < 14 + 1 := by omega
    have hzero : ∀ x ∈ losses prices, x = 0 := by
      intro x hx
      rcases List.mem_cons.mp hx with rfl | hmem
      · rfl
      · obtain ⟨d, hd, rfl⟩ := List.mem_map.mp hmem
        have := diffs_pos_of_chain prices hchain d hd
        split <;> [linarith; rfl]
    have hloss : avgLossLast prices 14 = 0 := ewmLast_all_zero _ _ hzero
    have hdne : diffs prices ≠ [] := by
      have hlz : (diffs prices).length = min prices.length prices.tail.length := by
        simp [diffs]
      intro hnil
      rw [hnil] at hlz
      simp only [List.length_nil, List.length_tail] at hlz
      omega
    have hgain : 0 < avgGainLast prices 14 := by
      unfold avgGainLast gains ewmLast
      obtain ⟨d, ds, hds⟩ := List.exists_cons_of_ne_nil hdne
      rw [hds]
      simp only [List.map_cons, List.foldl_cons, mul_zero, zero_add]
      have hdpos : 0 < d :=
        diffs_pos_of_chain prices hchain d (hds ▸ List.mem_cons_self d ds)
      have hmem : ∀ x ∈ ds.map (fun d => if 0 < d then d else 0), 0 ≤ x := by
        intro x hx
        obtain ⟨e, _, rfl⟩ := List.mem_map.mp hx
        split <;> [linarith; exact le_refl 0]
      refine foldl_ewm_pos (1 / ((14 : ℕ) : ℚ)) (by norm_num) (by norm_num) _ _ ?_ hmem
      rw [if_pos hdpos]
      have : (0 : ℚ) < 1 / ((14 : ℕ) : ℚ) := by norm_num
      exact mul_pos this hdpos
    unfold calculate_rsi
    rw [if_neg hlen, if_neg (by norm_num : ¬ (14 : ℕ) = 0)]
    unfold rsiFromAverages
    rw [hloss, if_pos rfl, if_neg (ne_of_gt hgain)]
  · intro prices w r h hloss
    unfold calculate_rsi at h
    split_ifs at h with hlen hw
    unfold rsiFromAverages at h
    rw [if_pos hloss] at h
    split_ifs at h
    exact (Option.some_inj.mp h).symm

/-- Witness for C7 at the strictly increasing 15-point series `[0, 1, …, 14]`:
its RSI is exactly 100, which the range conjunct then brackets in [0, 100], and its
smoothed average loss is zero so the saturation conjunct also yields 100. -/
theorem rsi_range_and_saturation_witness :
    (15 ≤ ([0, 1, 2, 3, 4, 5, 6, 7, 8, 9, 10, 11, 12, 13, 14] : List ℚ).length) ∧
    calculate_rsi ([0, 1, 2, 3, 4, 5, 6, 7, 8, 9, 10, 11, 12, 13, 14] : List ℚ) 14
      = some 100 ∧
    (0 ≤ (100 : ℚ) ∧ (100 : ℚ) ≤ 100) ∧
    avgLossLast ([0, 1, 2, 3, 4, 5, 6, 7, 8, 9, 10, 11, 12, 13, 14] : List ℚ) 14 = 0 ∧
    (100 : ℚ) = 100 := by
  have hs : calculate_rsi ([0, 1, 2, 3, 4, 5, 6, 7, 8, 9, 10, 11, 12, 13, 14] : List ℚ) 14
      = some 100 :=
    rsi_range_and_saturation.2.1 _ (by simp)
      (by simp only [List.chain'_cons, List.chain'_singleton, and_true]; norm_num)
  have hl : avgLossLast ([0, 1, 2, 3, 4, 5, 6, 7, 8, 9, 10, 11, 12, 13, 14] : List ℚ) 14
      = 0 := by
    norm_num [avgLossLast, losses, diffs, ewmLast]
  exact ⟨by simp, hs, rsi_range_and_saturation.1 _ 14 100 hs,
    hl, rsi_range_and_saturation.2.2 _ 14 100 hs hl⟩

/-! ## Play/pass decision (C1) -/

/-- C1: the strategy evaluation declares an instrument a play if and only if the
factor-sum score is at least 0.6 and at least one signal flag from the RSI factor or the
decline-magnitude factor is set; in particular the snapshot RSI=50, VIX=30, price at the
200-day MA, distance-from-low=0.5% (all decline inputs zero) scores 0.65 yet is a PASS
because no signal flag is set. -/
theorem play_iff_score_and_signal :
    (∀ (rsi : Option ℚ) (vix r1 r5 r10 rmax : ℚ) (dov : ℕ) (dlow : ℚ) (p200 : Option ℚ),
        (evaluateCore rsi vix r1 r5 r10 rmax dov dlow p200).1 = true ↔
          (6/10 ≤ strategyScore rsi vix r1 r5 rmax dov dlow p200 ∧
            ((rsiFactor rsi).2 = true ∨ (dropFactor r1 r5 rmax).2 = true))) ∧
    evaluateCore (some 50) 30 0 0 0 0 0 (1/2) (some 0) = (false, 13/20) := by
  constructor
  · intro rsi vix r1 r5 r10 rmax dov dlow p200
    unfold evaluateCore
    simp [Bool.and_eq_true, Bool.or_eq_true, decide_eq_true_eq]
  · norm_num [evaluateCore, strategyScore, rsiFactor, vixFactor, dropFactor,
      lowFactor, trendFactor, oversoldFactor]

/-! ## Decline-magnitude cascade (C2) -/

/-- First-match evaluation of an ordered `(condition, points, signal)` rule table. -/
def firstMatch : List (Bool × ℚ × Bool) → ℚ × Bool
  | [] => (0, false)
  | (c, p, s) :: rest => if c then (p, s) else firstMatch rest

/-- The decline cascade exactly as the spec table words it: the 0.18 tier reads the
10-day drawdown and does not set the decline signal flag. -/
def claimedDeclineFactor (r1 r5 r10 rmax : ℚ) : ℚ × Bool :=
  firstMatch
    [ (decide (8 ≤ |r1|), 3/10, true), (decide (5 ≤ |r1|), 25/100, true),
      (decide (10 ≤ |r5|), 28/100, true), (decide (7 ≤ |r5|), 23/100, true),
      (decide (5 ≤ |r10|), 18/100, false),
      (decide (8 ≤ |rmax|), 2/10, false), (decide (5 ≤ |rmax|), 15/100, false) ]

/-- The decline cascade amended to match the code: the 0.18 tier reads the 5-day
drawdown and does set the decline signal flag; the 10-day drawdown is never consulted. -/
def amendedDeclineFactor (r1 r5 rmax : ℚ) : ℚ × Bool :=
  firstMatch
    [ (decide (8 ≤ |r1|), 3/10, true), (decide (5 ≤ |r1|), 25/100, true),
      (decide (10 ≤ |r5|), 28/100, true), (decide (7 ≤ |r5|), 23/100, true),
      (decide (5 ≤ |r5|), 18/100, true),
      (decide (8 ≤ |rmax|), 2/10, false), (decide (5 ≤ |rmax|), 15/100, false) ]

/-- C2 counterexample: with no 1-day, 5-day or 30-day decline but a 10-day drawdown of
-6%, the claimed cascade awards 0.18 while the code's decline factor awards 0 — the
code's 0.18 tier is keyed to the 5-day drawdown, not the 10-day one. -/
theorem decline_tenday_counterexample :
    (dropFactor 0 0 0).1 = 0 ∧ (claimedDeclineFactor 0 0 (-6) 0).1 = 18/100 ∧
      (0 : ℚ) ≠ 18/100 := by
  refine ⟨by norm_num [dropFactor], ?_, by norm_num⟩
  norm_num [claimedDeclineFactor, firstMatch]

/-- C2 amended: the code's decline factor is the first-match priority cascade whose
0.18 tier is `|5-day drawdown| ≥ 5` with the signal flag set (the 10-day drawdown is
ignored); exactly one category is awarded, and with both a 1-day drop of -9% and a
5-day drop of -12% only the 1-day tier's 0.30 is awarded. -/
theorem decline_cascade_amended :
    (∀ r1 r5 rmax : ℚ, dropFactor r1 r5 rmax = amendedDeclineFactor r1 r5 rmax) ∧
    dropFactor (-9) (-12) 0 = (3/10, true) := by
  constructor
  · intro r1 r5 rmax
    unfold dropFactor amendedDeclineFactor
    simp only [firstMatch, decide_eq_true_eq]
  · norm_num [dropFactor]

/-! ## VIX default substitution (C3) -/

/-- C3: the claim (and the code's own comment "Default to moderate VIX if unavailable")
says an absent VIX reading is replaced by the neutral default before scoring and the
evaluation returns normally.  The default only fires when the `VIX` key is missing from
the dictionary; `analyze_ticker` stores the key with `None` when the volatility fetch
fails, and on that shape `vix_level >= 25` raises an un-caught `TypeError` (modelled as
`none`).  The same snapshot with the key truly absent scores normally with VIX 20. -/
theorem vix_none_typeerror :
    evaluate_strategy
        { RSI := none, VIX := some none, percent_drop := 0, rolling_5d_drop := 0,
          rolling_10d_drop := 0, max_recent_drop := 0, days_oversold := 0,
          distance_from_low := 100, price_vs_200ma := none } = none ∧
    evaluate_strategy
        { RSI := none, VIX := none, percent_drop := 0, rolling_5d_drop := 0,
          rolling_10d_drop := 0, max_recent_drop := 0, days_oversold := 0,
          distance_from_low := 100, price_vs_200ma := none }
      = some (false, 1/4) := by
  constructor
  · rfl
  · norm_num [evaluate_strategy, vixGet, evaluateCore, strategyScore, rsiFactor,
      vixFactor, dropFactor, lowFactor, trendFactor, oversoldFactor]

/-! ## Tier classification (C5)

`classify_tier` (src/app.py lines 394-415).  Python's
`estimated_credit and estimated_credit >= 100` is falsy both when the credit is `None`
and when it is `0.0`; `pyCreditA`/`pyCreditB` keep that truthiness test. -/

/-- `estimated_credit and estimated_credit >= 100`. -/
def pyCreditA : Option ℚ → Bool
  | none => false
  | some c => !(decide (c = 0)) && decide (100 ≤ c)

/-- `estimated_credit and 80 <= estimated_credit < 100`. -/
def pyCreditB : Option ℚ → Bool
  | none => false
  | some c => !(decide (c = 0)) && (decide (80 ≤ c) && decide (c < 100))

/-- `classify_tier` (src/app.py lines 394-415). -/
def classify_tier (confidence_score : ℚ) (estimated_credit : Option ℚ)
    (is_play : Bool) : String :=
  if is_play = false then "PASS"
  else if decide (4/5 ≤ confidence_score) && pyCreditA estimated_credit then "A"
  else if decide (7/10 ≤ confidence_score) && pyCreditB estimated_credit then "B"
  else if decide (3/5 ≤ confidence_score) then "C"
  else "PASS"

/-- The tiering cascade exactly as the spec words it, over a present credit. -/
def claimedTier (confidence credit : ℚ) (actionable : Bool) : String :=
  if actionable = false then "PASS"
  else if 4/5 ≤ confidence ∧ 100 ≤ credit then "A"
  else if 7/10 ≤ confidence ∧ 80 ≤ credit ∧ credit < 100 then "B"
  else if 3/5 ≤ confidence then "C"
  else "PASS"

/-- C5: for every confidence and (present) credit estimate the tier classifier agrees
with the spec's cascade; tier A comes back iff the decision is actionable with
confidence ≥ 0.8 and credit ≥ 100; at the boundary, confidence 0.80 with credit 100
is tier A while confidence 0.79999 with credit 100 is tier C. -/
theorem classify_tier_matches_spec :
    (∀ (conf credit : ℚ) (play : Bool),
        classify_tier conf (some credit) play = claimedTier conf credit play) ∧
    (∀ (conf credit : ℚ) (play : Bool),
        classify_tier conf (some credit) play = "A" ↔
          (play = true ∧ 4/5 ≤ conf ∧ 100 ≤ credit)) ∧
    classify_tier (4/5) (some 100) true = "A" ∧
    classify_tier (79999/100000) (some 100) true = "C" := by
  have hmain : ∀ (conf credit : ℚ) (play : Bool),
      classify_tier conf (some credit) play = claimedTier conf credit play := by
    intro conf credit play
    cases play with
    | false => rfl
    | true =>
      by_cases h0 : credit = 0
      · subst h0
        simp [classify_tier, claimedTier, pyCreditA, pyCreditB]
        norm_num
      · simp [classify_tier, claimedTier, pyCreditA, pyCreditB, h0, and_assoc]
  refine ⟨hmain, ?_, ?_, ?_⟩
  · intro conf credit play
    rw [hmain]
    cases play with
    | false =>
      simp [claimedTier]
    | true =>
      unfold claimedTier
      split_ifs with h1 h2 h3 <;> simp_all
  · norm_num [classify_tier, pyCreditA]
  · norm_num [classify_tier, pyCreditA, pyCreditB]

/-! ## Premium-credit estimator (C9)

`estimate_bull_put_credit` (src/utils/options.py lines 20-51).  The Black–Scholes put
pricer computes `np.log(S / K)`: for a negative ratio this is IEEE NaN — numpy emits a
RuntimeWarning, not an exception — and the NaN propagates through `d1`, `d2`,
`norm.cdf` and the put price.  Floats are therefore modelled as `Option ℚ` with `none`
for NaN; the transcendental value on the defined branch is an opaque numeric core
passed as a function argument.  A `fault` flag models an exception raised anywhere
inside the `try` block (NaN raises none, so it does not trigger the `except` path:
`max(nan, 80)` keeps its first argument because the comparison is False, and
`round(nan, 2)` is NaN, so the function returns NaN). -/

/-- Python banker's rounding of `y` to an integer (`round` built-in, ties to even). -/
def roundHalfEven (y : ℚ) : ℤ :=
  if y - ⌊y⌋ < 1/2 then ⌊y⌋
  else if 1/2 < y - ⌊y⌋ then ⌊y⌋ + 1
  else if Even ⌊y⌋ then ⌊y⌋ else ⌊y⌋ + 1

/-- `round(x, 2)`. -/
def round2 (x : ℚ) : ℚ := (roundHalfEven (100 * x) : ℚ) / 100

/-- `(vix_level or 25)`: `None` and `0` are falsy. -/
def vixOr25 : Option ℚ → ℚ
  | none => 25
  | some v => if v = 0 then 25 else v

/-- `if vix_level and vix_level < 18`. -/
def lowVixBoost : Option ℚ → Bool
  | none => false
  | some v => !(decide (v = 0)) && decide (v < 18)

/-- `base_vol = max((vix_level or 25) / 100 * 2.0, 0.30)`. -/
def base_vol (vix : Option ℚ) : ℚ := max (vixOr25 vix / 100 * 2) (3/10)

/-- `black_scholes_put` (src/utils/options.py lines 5-18) under IEEE semantics:
NaN (`none`) exactly when `np.log(S / K)` is taken of a negative ratio; otherwise the
transcendental arithmetic yields a real number, represented by the opaque numeric core
`core`. -/
def black_scholes_put (core : ℚ → ℚ → ℚ → ℚ → ℚ → ℚ)
    (S K T r sigma : ℚ) : Option ℚ :=
  if S / K < 0 then none else some (core S K T r sigma)

/-- The normal-path credit once both legs priced to real numbers:
`(short_put_price - long_put_price) * 100`, the low-VIX boost, then
`round(max(estimated_credit, 80), 2)` (src/utils/options.py lines 41-48). -/
def credit_normal (sp lp : ℚ) (vix : Option ℚ) : ℚ :=
  let est := (sp - lp) * 100
  let boosted := if lowVixBoost vix then est * (11/10) else est
  round2 (max boosted 80)

/-- `estimate_bull_put_credit` (src/utils/options.py lines 20-51), locals inlined:
`r = 0.05`, `T = days/365`, `short_strike = 0.9·price`, `long_strike = short - 2.5`.
`fault = true` is the `except` path returning the fixed conservative `100.0`.  A NaN
put price on either leg (`none` from `bsp`) propagates through the subtraction, the
boost, `max(nan, 80)` and `round(nan, 2)`, so the result is NaN (`none`) — NaN raises
nothing, hence the `except` fallback does not fire. -/
def estimate_bull_put_credit (fault : Bool) (bsp : ℚ → ℚ → ℚ → ℚ → ℚ → Option ℚ)
    (current_price : ℚ) (vix : Option ℚ) (days_to_expiration : ℚ) : Option ℚ :=
  if fault then some 100
  else
    match bsp current_price (current_price * (9/10)) (days_to_expiration / 365)
        (5/100) (base_vol vix),
      bsp current_price (current_price * (9/10) - 5/2) (days_to_expiration / 365)
        (5/100) (base_vol vix) with
    | some sp, some lp => some (credit_normal sp lp vix)
    | _, _ => none

theorem roundHalfEven_ge_floor (y : ℚ) : ⌊y⌋ ≤ roundHalfEven y := by
  unfold roundHalfEven
  split_ifs <;> omega

theorem round2_ge_80 (x : ℚ) (h : 80 ≤ x) : 80 ≤ round2 x := by
  have hfl : (8000 : ℤ) ≤ ⌊100 * x⌋ := by
    rw [Int.le_floor]
    push_cast
    linarith
  have hr : (8000 : ℤ) ≤ roundHalfEven (100 * x) :=
    le_trans hfl (roundHalfEven_ge_floor _)
  have hq : (8000 : ℚ) ≤ (roundHalfEven (100 * x) : ℚ) := by exact_mod_cast hr
  unfold round2
  linarith

theorem credit_normal_ge_80 (sp lp : ℚ) (vix : Option ℚ) :
    80 ≤ credit_normal sp lp vix := by
  unfold credit_normal
  exact round2_ge_80 _ (le_max_right _ _)

/-- C9 counterexample: at current_price 1 — as for every price below 2.5/0.9 ≈ 2.78 —
the long strike 0.9·1 − 2.5 = −1.6 is negative, `np.log` of the negative ratio is NaN,
and the estimator returns NaN: not a credit of at least 80.0 and not the 100.0
exception fallback (no exception is raised).  The opaque core is irrelevant here: the
NaN is forced by the ratio test alone. -/
theorem credit_nan_below_floor :
    ((1 : ℚ) * (9/10) - 5/2 < 0) ∧
    ((1 : ℚ) / (1 * (9/10) - 5/2) < 0) ∧
    estimate_bull_put_credit false (black_scholes_put (fun _ _ _ _ _ => 0))
      1 (some 25) 30 = none ∧
    estimate_bull_put_credit false (black_scholes_put (fun _ _ _ _ _ => 0))
      1 (some 25) 30 ≠ some 100 := by
  have hnan : estimate_bull_put_credit false (black_scholes_put (fun _ _ _ _ _ => 0))
      1 (some 25) 30 = none := by
    norm_num [estimate_bull_put_credit, black_scholes_put]
  exact ⟨by norm_num, by norm_num, hnan, by rw [hnan]; simp⟩

/-- C9 amended: any internal exception yields the fixed conservative fallback 100.0;
every real-valued credit the normal path returns is the rounded value floored at 80,
hence at least 80.0 — in particular for every price above 2.5/0.9 both strikes are
positive, both legs price to real numbers and a credit ≥ 80 comes back — but a NaN put
price on the long leg propagates and the estimator returns NaN (below any floor,
without raising and without the 100.0 fallback). -/
theorem credit_floor_fallback_nan :
    (∀ (bsp : ℚ → ℚ → ℚ → ℚ → ℚ → Option ℚ) (price : ℚ) (vix : Option ℚ) (days : ℚ),
        estimate_bull_put_credit true bsp price vix days = some 100) ∧
    (∀ (bsp : ℚ → ℚ → ℚ → ℚ → ℚ → Option ℚ) (price : ℚ) (vix : Option ℚ) (days : ℚ)
        (c : ℚ),
        estimate_bull_put_credit false bsp price vix days = some c → 80 ≤ c) ∧
    (∀ (core : ℚ → ℚ → ℚ → ℚ → ℚ → ℚ) (price : ℚ) (vix : Option ℚ) (days : ℚ),
        25/9 < price →
        ∃ c, estimate_bull_put_credit false (black_scholes_put core) price vix days
            = some c ∧ 80 ≤ c) ∧
    (∀ (bsp : ℚ → ℚ → ℚ → ℚ → ℚ → Option ℚ) (price : ℚ) (vix : Option ℚ) (days : ℚ),
        bsp price (price * (9/10) - 5/2) (days / 365) (5/100) (base_vol vix) = none →
        estimate_bull_put_credit false bsp price vix days = none) := by
  refine ⟨fun _ _ _ _ => rfl, ?_, ?_, ?_⟩
  · intro bsp price vix days c h
    unfold estimate_bull_put_credit at h
    rw [if_neg (by simp)] at h
    rcases hsp : bsp price (price * (9/10)) (days / 365) (5/100) (base_vol vix)
        with _ | sp <;>
      rcases hlp : bsp price (price * (9/10) - 5/2) (days / 365) (5/100) (base_vol vix)
        with _ | lp <;>
      rw [hsp, hlp] at h <;> simp at h
    exact h ▸ credit_normal_ge_80 sp lp vix
  · intro core price vix days hp
    have hp0 : 0 < price := lt_trans (by norm_num) hp
    have hss : 0 < price * (9/10) := by positivity
    have hls : 0 < price * (9/10) - 5/2 := by nlinarith
    have h1 : black_scholes_put core price (price * (9/10)) (days / 365) (5/100)
        (base_vol vix)
        = some (core price (price * (9/10)) (days / 365) (5/100) (base_vol vix)) := by
      unfold black_scholes_put
      rw [if_neg (not_lt.mpr (le_of_lt (div_pos hp0 hss)))]
    have h2 : black_scholes_put core price (price * (9/10) - 5/2) (days / 365) (5/100)
        (base_vol vix)
        = some (core price (price * (9/10) - 5/2) (days / 365) (5/100)
            (base_vol vix)) := by
      unfold black_scholes_put
      rw [if_neg (not_lt.mpr (le_of_lt (div_pos hp0 hls)))]
    refine ⟨credit_normal
        (core price (price * (9/10)) (days / 365) (5/100) (base_vol vix))
        (core price (price * (9/10) - 5/2) (days / 365) (5/100) (base_vol vix)) vix,
      ?_, credit_normal_ge_80 _ _ _⟩
    unfold estimate_bull_put_credit
    rw [if_neg (by simp), h1, h2]
  · intro bsp price vix days h
    unfold estimate_bull_put_credit
    rw [if_neg (by simp), h]
    rcases hsp : bsp price (price * (9/10)) (days / 365) (5/100) (base_vol vix)
        with _ | sp <;> rfl

/-- Witness for C9's amended theorem: a constant real-valued pricer at price 100
returns exactly 80 (so the floor conjunct gives 80 ≤ 80); at price 3 > 25/9 the
NaN-guarded pricer returns a floored real credit; and an always-NaN long leg makes the
estimator return NaN. -/
theorem credit_floor_fallback_nan_witness :
    (estimate_bull_put_credit false (fun _ _ _ _ _ => some 0) 100 none 30 = some 80 ∧
      (80 : ℚ) ≤ 80) ∧
    (25/9 < (3 : ℚ) ∧
      ∃ c, estimate_bull_put_credit false (black_scholes_put (fun _ _ _ _ _ => 0))
          3 none 30 = some c ∧ 80 ≤ c) ∧
    ((fun _ _ _ _ _ => (none : Option ℚ)) (1 : ℚ) ((1 : ℚ) * (9/10) - 5/2)
        ((30 : ℚ) / 365) ((5 : ℚ)/100) (base_vol none) = none ∧
      estimate_bull_put_credit false (fun _ _ _ _ _ => none) 1 none 30 = none) := by
  have h80 : estimate_bull_put_credit false (fun _ _ _ _ _ => some (0 : ℚ)) 100 none 30
      = some 80 := by
    norm_num [estimate_bull_put_credit, credit_normal, lowVixBoost, round2,
      roundHalfEven]
  exact ⟨⟨h80, credit_floor_fallback_nan.2.1 _ 100 none 30 80 h80⟩,
    ⟨by norm_num, credit_floor_fallback_nan.2.2.1 (fun _ _ _ _ _ => 0) 3 none 30
      (by norm_num)⟩,
    ⟨rfl, credit_floor_fallback_nan.2.2.2 (fun _ _ _ _ _ => none) 1 none 30 rfl⟩⟩

/-! ## File-backed TTL cache (C8)

`_set_cached_data` / `_get_cached_data` (src/utils/screener.py lines 52-97).  The store
maps keys to entries carrying their creation timestamp (seconds); a read computes the
age in hours and serves the payload only while `age_hours < max_age_hours`. -/

structure CacheEntry (V : Type) where
  timestamp : ℚ
  content : V

def CacheStore (V : Type) := String → Option (CacheEntry V)

/-- `_set_cached_data` (src/utils/screener.py lines 83-97): store the payload together
with the current time under the key. -/
def set_cached_data {V : Type} (store : CacheStore V) (cache_key : String) (data : V)
    (now : ℚ) : CacheStore V :=
  fun k => if k = cache_key then some ⟨now, data⟩ else store k

/-- `_get_cached_data` (src/utils/screener.py lines 57-81): a missing entry is a miss;
a present entry is served iff its age in hours is strictly below `max_age_hours`. -/
def get_cached_data {V : Type} (store : CacheStore V) (cache_key : String) (now : ℚ)
    (max_age_hours : ℚ) : Option V :=
  match store cache_key with
  | none => none
  | some e => if (now - e.timestamp) / 3600 < max_age_hours then some e.content else none

/-- C8: writing `v` under `k` and reading `k` back within the TTL returns exactly `v`;
reading after the TTL has elapsed is a miss; and in general a stored entry is served
if and only if the time elapsed since its creation timestamp is less than the TTL. -/
theorem cache_set_get_ttl :
    (∀ (V : Type) (store : CacheStore V) (k : String) (v : V) (t now ttl : ℚ),
        ((now - t) / 3600 < ttl →
          get_cached_data (set_cached_data store k v t) k now ttl = some v) ∧
        (ttl ≤ (now - t) / 3600 →
          get_cached_data (set_cached_data store k v t) k now ttl = none)) ∧
    (∀ (V : Type) (store : CacheStore V) (k : String) (now ttl : ℚ) (e : CacheEntry V),
        store k = some e →
          (get_cached_data store k now ttl = some e.content ↔
            (now - e.timestamp) / 3600 < ttl)) := by
  constructor
  · intro V store k v t now ttl
    constructor
    · intro h
      simp [get_cached_data, set_cached_data, h]
    · intro h
      simp [get_cached_data, set_cached_data, not_lt.mpr h]
  · intro V store k now ttl e he
    unfold get_cached_data
    rw [he]
    dsimp only
    split_ifs with h
    · simp [h]
    · simp [h]

/-- Witness for C8: a fresh write read back half an hour later with a 1-hour TTL yields
the payload; read two hours later it is a miss; and the validity criterion matches on a
concrete stored entry. -/
theorem cache_set_get_ttl_witness :
    (((1800 : ℚ) - 0) / 3600 < 1 ∧
      get_cached_data (set_cached_data (fun _ => none) "k" (5 : ℚ) 0) "k" 1800 1
        = some 5) ∧
    ((1 : ℚ) ≤ ((7200 : ℚ) - 0) / 3600 ∧
      get_cached_data (set_cached_data (fun _ => none) "k" (5 : ℚ) 0) "k" 7200 1
        = none) ∧
    ((fun _ => some (⟨0, (5 : ℚ)⟩ : CacheEntry ℚ)) "k" = some ⟨0, 5⟩ ∧
      (get_cached_data (fun _ => some (⟨0, (5 : ℚ)⟩ : CacheEntry ℚ)) "k" 1800 1
          = some 5 ↔ ((1800 : ℚ) - 0) / 3600 < 1)) :=
  ⟨⟨by norm_num,
      ((cache_set_get_ttl.1 ℚ (fun _ => none) "k" 5 0 1800 1).1 (by norm_num))⟩,
    ⟨by norm_num,
      ((cache_set_get_ttl.1 ℚ (fun _ => none) "k" 5 0 7200 1).2 (by norm_num))⟩,
    ⟨rfl, cache_set_get_ttl.2 ℚ (fun _ => some ⟨0, 5⟩) "k" 1800 1 ⟨0, 5⟩ rfl⟩⟩

/-! ## Screening pipeline: per-period decline measure (C4)

Batch mode: `screen_stocks` (src/utils/screener.py lines 400-423); streaming mode:
`calculate_period_drop` (src/utils/screener.py lines 700-744).  A price history is a
list of OHLC rows, oldest first; the period window arrives already filtered (by date in
batch mode, by row count in streaming mode). -/

structure Row where
  high : ℚ
  low : ℚ
  close : ℚ
deriving DecidableEq

def closes (df : List Row) : List ℚ := df.map (·.close)

/-- `series.max()` (only ever applied to nonempty frames in the source). -/
def maxOfList : List ℚ → ℚ
  | [] => 0
  | h :: t => t.foldl max h

/-- `series.pct_change().dropna()`: consecutive fractional returns. -/
def dailyReturns (cs : List ℚ) : List ℚ :=
  List.zipWith (fun prev next => (next - prev) / prev) cs cs.tail

/-- `daily_returns.min() * 100 if not daily_returns.empty else 0`. -/
def biggestDailyDrop (cs : List ℚ) : ℚ :=
  match dailyReturns cs with
  | [] => 0
  | h :: t => (t.foldl min h) * 100

/-- `df['Close'].iloc[-1]`. -/
def lastClose (df : List Row) : ℚ := ((closes df).getLast?).getD 0

/-- `df['Close'].iloc[-2]`. -/
def secondLastClose (df : List Row) : ℚ :=
  match (closes df).reverse with
  | _ :: b :: _ => b
  | _ => 0

/-- Per-period decline measure of batch mode, `screen_stocks` lines 375-423: an empty
history or an empty period window skips the instrument (`continue` at lines 375-379 and
383-386, modelled `none`); with one window observation the day-over-day fallback needs
two total rows (else the `continue` at line 409 skips); with at least two window
observations, the more negative of the single-day minimum return and the decline from
the period high. -/
def screen_period_drop (df period_df : List Row) : Option ℚ :=
  if df = [] then none
  else if period_df = [] then none
  else
    let current := lastClose df
    if period_df.length < 2 then
      if 2 ≤ df.length then
        some ((current - secondLastClose df) / secondLastClose df * 100)
      else none
    else
      let period_high := maxOfList (period_df.map (·.high))
      let biggest := biggestDailyDrop (closes period_df)
      let drop_from_high := (current - period_high) / period_high * 100
      some (min biggest drop_from_high)

/-- Lookback table of `calculate_period_drop` lines 710-721. -/
def periodLookback (period : String) : ℕ :=
  if period = "today" ∨ period = "1d" then 1
  else if period = "3d" then 3
  else if period = "1w" then 7
  else if period = "2w" then 14
  else if period = "1m" then 30
  else 7

/-- `df.tail(n)`: the last `n` rows. -/
def lastN {α : Type} (n : ℕ) (l : List α) : List α := l.drop (l.length - n)

/-- `calculate_period_drop` (src/utils/screener.py lines 700-744): the most negative of
the three candidate declines over the last `lookback+1` rows. -/
def calculate_period_drop (df : List Row) (period : String) : ℚ :=
  if df.length < 2 then 0
  else
    let current := lastClose df
    let period_data := lastN (min (periodLookback period + 1) df.length) df
    if period_data.length < 2 then
      (current - secondLastClose df) / secondLastClose df * 100
    else
      let period_high := maxOfList (period_data.map (·.high))
      let drop_from_high := (current - period_high) / period_high * 100
      let biggest := biggestDailyDrop (closes period_data)
      let period_start := ((closes period_data).head?).getD 0
      let drop_from_start := (current - period_start) / period_start * 100
      min (min drop_from_high biggest) drop_from_start

/-- The decline measure exactly as the spec words it: the most negative of the decline
from period high, the minimum single-day return, and the decline from period start. -/
def specThreeCandidateDrop (window : List Row) (current : ℚ) : ℚ :=
  let period_high := maxOfList (window.map (·.high))
  let drop_from_high := (current - period_high) / period_high * 100
  let biggest := biggestDailyDrop (closes window)
  let period_start := ((closes window).head?).getD 0
  let drop_from_start := (current - period_start) / period_start * 100
  min (min drop_from_high biggest) drop_from_start

/-- C4 counterexample: on the three-row history with closes 100, 98, 95 and highs all
10, batch mode returns the two-candidate value -150/49 ≈ -3.06% while the claimed
three-candidate measure is -5% (the period-start candidate): batch mode never computes
the decline from the period-start price. -/
theorem screen_drop_two_candidates_counterexample :
    screen_period_drop
        [⟨10, 0, 100⟩, ⟨10, 0, 98⟩, ⟨10, 0, 95⟩]
        [⟨10, 0, 100⟩, ⟨10, 0, 98⟩, ⟨10, 0, 95⟩] = some (-150/49) ∧
    specThreeCandidateDrop [⟨10, 0, 100⟩, ⟨10, 0, 98⟩, ⟨10, 0, 95⟩] 95 = -5 ∧
    lastClose [(⟨10, 0, 100⟩ : Row), ⟨10, 0, 98⟩, ⟨10, 0, 95⟩] = 95 ∧
    ((-150/49 : ℚ) ≠ -5) := by
  refine ⟨?_, ?_, by norm_num [lastClose, closes], by norm_num⟩
  · unfold screen_period_drop
    rw [if_neg (by simp : ¬ ([⟨10, 0, 100⟩, ⟨10, 0, 98⟩, ⟨10, 0, 95⟩] : List Row) = []),
      if_neg (by simp : ¬ ([⟨10, 0, 100⟩, ⟨10, 0, 98⟩, ⟨10, 0, 95⟩] : List Row) = []),
      if_neg (by norm_num :
        ¬ ([⟨10, 0, 100⟩, ⟨10, 0, 98⟩, ⟨10, 0, 95⟩] : List Row).length < 2)]
    norm_num [lastClose, closes, secondLastClose, maxOfList,
      biggestDailyDrop, dailyReturns, min_def]
  · norm_num [specThreeCandidateDrop, closes, maxOfList, biggestDailyDrop,
      dailyReturns, min_def]

theorem periodLookback_pos (period : String) : 1 ≤ periodLookback period := by
  unfold periodLookback
  split_ifs <;> norm_num

theorem lastN_length {α : Type} (n : ℕ) (l : List α) :
    (lastN n l).length = min n l.length := by
  simp [lastN]
  omega

/-- C4 amended: streaming mode's measure is the most negative of the three candidates
over the last `lookback+1` rows; batch mode computes only the first two candidates,
but agrees with the three-candidate measure whenever the window's highest High is at
least its first Close (with positive start price and nonnegative current price);
batch mode falls back to the simple day-over-day change when exactly one observation
falls in the period window and at least two rows exist overall; and with zero
observations in the period window batch mode skips the instrument entirely. -/
theorem period_drop_measures :
    (∀ (df : List Row) (period : String), 2 ≤ df.length →
        calculate_period_drop df period
          = specThreeCandidateDrop
              (lastN (min (periodLookback period + 1) df.length) df) (lastClose df)) ∧
    (∀ df period_df : List Row, df ≠ [] → 2 ≤ period_df.length →
        0 < ((closes period_df).head?).getD 0 →
        ((closes period_df).head?).getD 0 ≤ maxOfList (period_df.map (·.high)) →
        0 ≤ lastClose df →
        screen_period_drop df period_df
          = some (specThreeCandidateDrop period_df (lastClose df))) ∧
    (∀ df period_df : List Row, period_df ≠ [] → period_df.length < 2 →
        2 ≤ df.length →
        screen_period_drop df period_df
          = some ((lastClose df - secondLastClose df) / secondLastClose df * 100)) ∧
    (∀ df : List Row, screen_period_drop df [] = none) := by
  refine ⟨?_, ?_, ?_, ?_⟩
  · intro df period h2
    have hlb := periodLookback_pos period
    have hwin : ¬ (lastN (min (periodLookback period + 1) df.length) df).length < 2 := by
      rw [lastN_length]
      omega
    unfold calculate_period_drop specThreeCandidateDrop
    rw [if_neg (by omega : ¬ df.length < 2), if_neg hwin]
  · intro df period_df hne h2 hs hH hc
    have hnl : ¬ period_df.length < 2 := by omega
    have hpne : period_df ≠ [] := by
      intro h
      rw [h] at h2
      simp at h2
    unfold screen_period_drop specThreeCandidateDrop
    rw [if_neg hne, if_neg hpne, if_neg hnl]
    dsimp only
    set c := lastClose df with hceq
    set s := ((closes period_df).head?).getD 0 with hseq
    set H := maxOfList (period_df.map (·.high)) with hHeq
    set B := biggestDailyDrop (closes period_df) with hBeq
    have hHpos : 0 < H := lt_of_lt_of_le hs hH
    have hdfh : (c - H) / H * 100 ≤ (c - s) / s * 100 := by
      have hdiv : (c - H) / H ≤ (c - s) / s := by
        rw [div_le_div_iff₀ hHpos hs]
        nlinarith
      linarith
    rw [min_comm B ((c - H) / H * 100),
      min_eq_left (le_trans (min_le_left _ _) hdfh)]
  · intro df period_df hpne hlt h2
    have hne : df ≠ [] := by
      intro hnil
      rw [hnil] at h2
      simp at h2
    unfold screen_period_drop
    rw [if_neg hne, if_neg hpne, if_pos hlt, if_pos h2]
  · intro df
    simp [screen_period_drop]

/-- Witness for C4's amended theorem: the streaming equality on the three-row history
over period "3d", the batch/three-candidate agreement on a history whose highs dominate
its closes, the day-over-day fallback with a one-row period window, and the skip on an
empty period window. -/
theorem period_drop_measures_witness :
    (2 ≤ ([⟨10, 0, 100⟩, ⟨10, 0, 98⟩, ⟨10, 0, 95⟩] : List Row).length ∧
      calculate_period_drop [⟨10, 0, 100⟩, ⟨10, 0, 98⟩, ⟨10, 0, 95⟩] "3d"
        = specThreeCandidateDrop
            (lastN (min (periodLookback "3d" + 1)
                ([⟨10, 0, 100⟩, ⟨10, 0, 98⟩, ⟨10, 0, 95⟩] : List Row).length)
              [⟨10, 0, 100⟩, ⟨10, 0, 98⟩, ⟨10, 0, 95⟩])
            (lastClose [⟨10, 0, 100⟩, ⟨10, 0, 98⟩, ⟨10, 0, 95⟩])) ∧
    (screen_period_drop [⟨100, 0, 100⟩, ⟨98, 0, 98⟩, ⟨95, 0, 95⟩]
        [⟨100, 0, 100⟩, ⟨98, 0, 98⟩, ⟨95, 0, 95⟩]
      = some (specThreeCandidateDrop [⟨100, 0, 100⟩, ⟨98, 0, 98⟩, ⟨95, 0, 95⟩]
          (lastClose [⟨100, 0, 100⟩, ⟨98, 0, 98⟩, ⟨95, 0, 95⟩]))) ∧
    (([⟨10, 0, 95⟩] : List Row) ≠ [] ∧
      screen_period_drop [⟨10, 0, 100⟩, ⟨10, 0, 98⟩, ⟨10, 0, 95⟩] [⟨10, 0, 95⟩]
        = some ((lastClose [⟨10, 0, 100⟩, ⟨10, 0, 98⟩, ⟨10, 0, 95⟩]
              - secondLastClose [⟨10, 0, 100⟩, ⟨10, 0, 98⟩, ⟨10, 0, 95⟩])
            / secondLastClose [⟨10, 0, 100⟩, ⟨10, 0, 98⟩, ⟨10, 0, 95⟩] * 100)) ∧
    screen_period_drop [⟨10, 0, 100⟩, ⟨10, 0, 98⟩, ⟨10, 0, 95⟩] [] = none :=
  ⟨⟨by norm_num,
      period_drop_measures.1 [⟨10, 0, 100⟩, ⟨10, 0, 98⟩, ⟨10, 0, 95⟩] "3d" (by norm_num)⟩,
    period_drop_measures.2.1 [⟨100, 0, 100⟩, ⟨98, 0, 98⟩, ⟨95, 0, 95⟩]
      [⟨100, 0, 100⟩, ⟨98, 0, 98⟩, ⟨95, 0, 95⟩] (by simp) (by norm_num)
      (by norm_num [closes]) (by norm_num [closes, maxOfList, min_def, max_def])
      (by norm_num [lastClose, closes]),
    ⟨by simp,
      period_drop_measures.2.2.1 [⟨10, 0, 100⟩, ⟨10, 0, 98⟩, ⟨10, 0, 95⟩] [⟨10, 0, 95⟩]
        (by simp) (by norm_num) (by norm_num)⟩,
    period_drop_measures.2.2.2 [⟨10, 0, 100⟩, ⟨10, 0, 98⟩, ⟨10, 0, 95⟩]⟩

/-! ## Screener RSI default substitution (C10)

`screen_stocks` lines 392-399 and `screen_single_stock` lines 659-662 both replace an
uncomputable RSI by the neutral 50, then exclude the instrument when
`current_rsi > max_rsi`. -/

/-- RSI as used by `screen_stocks` (lines 392-399): `50` when `calculate_rsi` fails. -/
def screen_stocks_rsi (cs : List ℚ) : ℚ :=
  match calculate_rsi cs 14 with
  | none => 50
  | some r => r

/-- RSI as used by `screen_single_stock` (lines 659-662): the same substitution. -/
def screen_single_stock_rsi (cs : List ℚ) : ℚ :=
  match calculate_rsi cs 14 with
  | none => 50
  | some r => r

/-- The RSI filter of both paths: the instrument is excluded iff
`current_rsi > max_rsi`. -/
def rsi_filter_excludes (current_rsi max_rsi : ℚ) : Bool :=
  decide (max_rsi < current_rsi)

/-- C10: when a history has fewer than 15 closes, both screening paths substitute the
neutral RSI 50 instead of treating RSI as unknown, so for every RSI threshold below 50
such an instrument is always excluded. -/
theorem short_history_neutral_rsi_excluded (cs : List ℚ) (max_rsi : ℚ)
    (hlen : cs.length < 15) (hmax : max_rsi < 50) :
    screen_stocks_rsi cs = 50 ∧ screen_single_stock_rsi cs = 50 ∧
    rsi_filter_excludes (screen_stocks_rsi cs) max_rsi = true ∧
    rsi_filter_excludes (screen_single_stock_rsi cs) max_rsi = true := by
  have hnone : calculate_rsi cs 14 = none := by
    unfold calculate_rsi
    simp [hlen]
  have h1 : screen_stocks_rsi cs = 50 := by
    unfold screen_stocks_rsi
    rw [hnone]
  have h2 : screen_single_stock_rsi cs = 50 := by
    unfold screen_single_stock_rsi
    rw [hnone]
  refine ⟨h1, h2, ?_, ?_⟩ <;>
    simp [rsi_filter_excludes, h1, h2, hmax]

/-- Witness for C10 at the eleven-point history `[1, …, 11]` with threshold 40. -/
theorem short_history_neutral_rsi_excluded_witness :
    (([1, 2, 3, 4, 5, 6, 7, 8, 9, 10, 11] : List ℚ).length < 15 ∧ (40 : ℚ) < 50) ∧
    screen_stocks_rsi [1, 2, 3, 4, 5, 6, 7, 8, 9, 10, 11] = 50 ∧
    rsi_filter_excludes
      (screen_single_stock_rsi [1, 2, 3, 4, 5, 6, 7, 8, 9, 10, 11]) 40 = true :=
  ⟨⟨by norm_num, by norm_num⟩,
    (short_history_neutral_rsi_excluded [1, 2, 3, 4, 5, 6, 7, 8, 9, 10, 11] 40
      (by norm_num) (by norm_num)).1,
    (short_history_neutral_rsi_excluded [1, 2, 3, 4, 5, 6, 7, 8, 9, 10, 11] 40
      (by norm_num) (by norm_num)).2.2.2⟩

end StockOptions
